import Mathlib

/-!
Verification development for the CanneX assistance system.

The definitions below are shallow embeddings of the Python sources:
* `src/src/main.py` — `CanneApp.obstacle_detection_loop` (alert gate,
  threshold classification, broadcast cadence) and `_handle_bt_get_status`;
* `src/src/sensors/ultrasonic.py` — `UltrasonicSensor.measure_distance`;
* `src/src/connectivity/bluetooth.py` and `src/src/connectivity/usb.py` —
  `_process_received_data` and `BluetoothManager.broadcast`;
* `src/src/detection/object_detector.py` — `ObjectDetector.detect_objects`.

Python floats are modelled as exact rationals (`ℚ`); the claims proved here
involve only comparisons and arithmetic on values where binary floating-point
rounding plays no role.  Fallible operations return `Option`.
-/

namespace CanneX

/-- Severity of an alert, ordered `info < warning < danger`
(`Info` is emitted only by the object-detection path). -/
inductive AlertLevel where
  | info
  | warning
  | danger
deriving DecidableEq, Repr

/-- Configuration of the obstacle-detection loop, from `config.ULTRASONIC_CONFIG`
(`DANGER_DISTANCE`, `WARNING_DISTANCE`, `MAX_DISTANCE`, `MEASURE_INTERVAL`). -/
structure ObstacleCfg where
  dangerDistance : ℚ
  warningDistance : ℚ
  maxDistance : ℚ
  measureInterval : ℚ
deriving DecidableEq, Repr

/-- The mutable local state of `obstacle_detection_loop`
(`last_distance`, `last_alert_time`, `last_broadcast_time` in `main.py`). -/
structure LoopState where
  lastDistance : Option ℚ
  lastAlertTime : ℚ
  lastBroadcastTime : ℚ
deriving DecidableEq, Repr

/-- One loop iteration's observable output: the state after the iteration,
the distance broadcast to clients (if the 1 s cadence fired), the alert event
emitted to audio/haptic actuators (if any), and the sleep performed at the end
of the iteration (`time.sleep(0.1)` on a failed measurement,
`time.sleep(MEASURE_INTERVAL)` otherwise). -/
structure StepOut where
  state : LoopState
  broadcast : Option ℚ
  event : Option (AlertLevel × ℚ)
  delay : ℚ
deriving DecidableEq, Repr

/-- The alert gate of `obstacle_detection_loop` (`main.py` lines 312-314):
`last_distance is None or abs(distance - last_distance) > 10
or current_time - last_alert_time > 3`. -/
def alertGate (st : LoopState) (distance now : ℚ) : Bool :=
  match st.lastDistance with
  | none => true
  | some ld => decide (10 < |distance - ld|) || decide (3 < now - st.lastAlertTime)

/-- The threshold classification applied inside the gate
(`main.py` lines 317 and 329): `distance < DANGER_DISTANCE` gives a danger
alert, else `distance < WARNING_DISTANCE` gives a warning alert,
else no distance alert. -/
def classifyDistance (cfg : ObstacleCfg) (distance : ℚ) : Option AlertLevel :=
  if distance < cfg.dangerDistance then some .danger
  else if distance < cfg.warningDistance then some .warning
  else none

/-- One iteration of `obstacle_detection_loop` (`main.py` lines 294-344) on a
measurement outcome `distance` (`none` = failed measurement) at time `now`:
* `distance is None` → sleep 0.1 s and retry, state untouched;
* broadcast the distance if more than 1 s elapsed since the last broadcast;
* if the alert gate is open, emit the danger/warning alert given by the
  thresholds and record `last_alert_time`;
* finally always record `last_distance = distance`. -/
def obstacleStep (cfg : ObstacleCfg) (st : LoopState) (distance : Option ℚ)
    (now : ℚ) : StepOut :=
  match distance with
  | none => ⟨st, none, none, 1/10⟩
  | some d =>
    let bcastFires := decide (1 < now - st.lastBroadcastTime)
    let bcast : Option ℚ := if bcastFires then some d else none
    let lastB : ℚ := if bcastFires then now else st.lastBroadcastTime
    if alertGate st d now then
      if d < cfg.dangerDistance then
        ⟨⟨some d, now, lastB⟩, bcast, some (.danger, d), cfg.measureInterval⟩
      else if d < cfg.warningDistance then
        ⟨⟨some d, now, lastB⟩, bcast, some (.warning, d), cfg.measureInterval⟩
      else
        ⟨⟨some d, st.lastAlertTime, lastB⟩, bcast, none, cfg.measureInterval⟩
    else
      ⟨⟨some d, st.lastAlertTime, lastB⟩, bcast, none, cfg.measureInterval⟩

/-- Number of alert events produced by one iteration (0 or 1). -/
def StepOut.alertCount (o : StepOut) : ℕ :=
  if o.event.isSome then 1 else 0

theorem obstacleStep_event_eq_classify (cfg : ObstacleCfg) (st : LoopState)
    (d now : ℚ) (hgate : alertGate st d now = true) :
    (obstacleStep cfg st (some d) now).event
      = (classifyDistance cfg d).map (fun l => (l, d)) := by
  simp only [obstacleStep, classifyDistance, hgate, if_true]
  split_ifs <;> simp

/-- C1: with strictly ordered thresholds `danger < warning < max`, a valid
sample `d` is classified danger iff `d < danger_cm`, warning iff
`danger_cm ≤ d < warning_cm`, and otherwise yields no distance alert; the
loop's emitted event, whenever the alert gate is open, is exactly this
classification paired with the distance. -/
theorem distance_classification (cfg : ObstacleCfg)
    (h₁ : cfg.dangerDistance < cfg.warningDistance)
    (h₂ : cfg.warningDistance < cfg.maxDistance) :
    (∀ st d now, alertGate st d now = true →
      (obstacleStep cfg st (some d) now).event
        = (classifyDistance cfg d).map (fun l => (l, d)))
    ∧ (∀ d, classifyDistance cfg d = some .danger ↔ d < cfg.dangerDistance)
    ∧ (∀ d, classifyDistance cfg d = some .warning ↔
        cfg.dangerDistance ≤ d ∧ d < cfg.warningDistance)
    ∧ (∀ d, classifyDistance cfg d = none ↔ cfg.warningDistance ≤ d) := by
  refine ⟨fun st d now h => obstacleStep_event_eq_classify cfg st d now h,
    fun d => ?_, fun d => ?_, fun d => ?_⟩ <;>
    · unfold classifyDistance
      split_ifs with ha hb <;>
        simp_all <;> linarith

theorem obstacleStep_lastDistance (cfg : ObstacleCfg) (st : LoopState)
    (d now : ℚ) :
    (obstacleStep cfg st (some d) now).state.lastDistance = some d := by
  simp only [obstacleStep]
  split_ifs <;> rfl

theorem obstacleStep_suppressed_lastAlertTime (cfg : ObstacleCfg)
    (st : LoopState) (d now : ℚ)
    (h : (obstacleStep cfg st (some d) now).event = none) :
    (obstacleStep cfg st (some d) now).state.lastAlertTime
      = st.lastAlertTime := by
  simp only [obstacleStep] at h ⊢
  split_ifs at h ⊢ <;> simp_all

theorem obstacleStep_gate_closed (cfg : ObstacleCfg) (st : LoopState)
    (d now : ℚ) (h : alertGate st d now = false) :
    (obstacleStep cfg st (some d) now).event = none := by
  simp [obstacleStep, h]

/-- C2: a pair of consecutive valid samples whose distances differ by at most
the 10 cm change threshold, each arriving within the 3 s minimum alert
interval of the last emission, produces at most one alert: the second sample
is always suppressed by the hysteresis gate. -/
theorem hysteresis_pair (cfg : ObstacleCfg) (st₀ : LoopState)
    (d₁ d₂ t₁ t₂ : ℚ)
    (hΔ : |d₂ - d₁| ≤ 10)
    (hi₁ : t₁ - st₀.lastAlertTime ≤ 3)
    (hi₂ : t₂ - (obstacleStep cfg st₀ (some d₁) t₁).state.lastAlertTime ≤ 3) :
    (obstacleStep cfg (obstacleStep cfg st₀ (some d₁) t₁).state
        (some d₂) t₂).event = none
    ∧ (obstacleStep cfg st₀ (some d₁) t₁).alertCount
        + (obstacleStep cfg (obstacleStep cfg st₀ (some d₁) t₁).state
            (some d₂) t₂).alertCount ≤ 1 := by
  set st₁ := (obstacleStep cfg st₀ (some d₁) t₁).state with hst₁
  have hld : st₁.lastDistance = some d₁ := obstacleStep_lastDistance cfg st₀ d₁ t₁
  have hgate : alertGate st₁ d₂ t₂ = false := by
    unfold alertGate
    rw [hld]
    simp only [Bool.or_eq_false_iff, decide_eq_false_iff_not, not_lt]
    exact ⟨hΔ, hi₂⟩
  have hev : (obstacleStep cfg st₁ (some d₂) t₂).event = none :=
    obstacleStep_gate_closed cfg st₁ d₂ t₂ hgate
  refine ⟨hev, ?_⟩
  have h₂ : (obstacleStep cfg st₁ (some d₂) t₂).alertCount = 0 := by
    simp [StepOut.alertCount, hev]
  have h₁ : (obstacleStep cfg st₀ (some d₁) t₁).alertCount ≤ 1 := by
    unfold StepOut.alertCount
    split_ifs <;> omega
  omega

theorem hysteresis_pair_witness :
    |(45 : ℚ) - 40| ≤ 10 ∧ (2 : ℚ) - 0 ≤ 3 ∧
      (obstacleStep ⟨50, 100, 300, 1⟩
          (obstacleStep ⟨50, 100, 300, 1⟩ ⟨none, 0, 0⟩ (some 40) 2).state
          (some 45) 3).event = none := by
  have hi₂ : (3 : ℚ) -
      (obstacleStep ⟨50, 100, 300, 1⟩ ⟨none, 0, 0⟩ (some 40) 2).state.lastAlertTime
        ≤ 3 := by
    norm_num [obstacleStep, alertGate]
  exact ⟨by norm_num, by norm_num,
    (hysteresis_pair ⟨50, 100, 300, 1⟩ ⟨none, 0, 0⟩ 40 45 2 3
      (by norm_num) (by norm_num) hi₂).1⟩

/-- C3 counterexample: a suppressed valid sample does change `last_distance`.
With `last_distance = 40`, `last_alert_time = 10`, a sample of 45 cm at time
11 is suppressed (|Δ| = 5 ≤ 10 and 1 s ≤ 3 s since the last alert), yet
`last_distance` becomes 45: `main.py` line 341 runs on every valid sample. -/
theorem suppressed_sample_changes_lastDistance :
    (obstacleStep ⟨50, 100, 300, 1⟩ ⟨some 40, 10, 10⟩ (some 45) 11).event = none
    ∧ (obstacleStep ⟨50, 100, 300, 1⟩ ⟨some 40, 10, 10⟩
        (some 45) 11).state.lastDistance
      ≠ (⟨some 40, 10, 10⟩ : LoopState).lastDistance := by
  constructor
  · norm_num [obstacleStep, alertGate]
  · norm_num [obstacleStep, alertGate]

/-- C3 amended: on a suppressed valid sample `last_alert_emitted_at` is
unchanged but `last_distance` is set to the sample's value (it is updated on
every valid sample, not only on emission); a `Timeout` sample leaves the
whole loop state unchanged. -/
theorem suppressed_sample_frame (cfg : ObstacleCfg) (st : LoopState)
    (d now : ℚ)
    (hsup : (obstacleStep cfg st (some d) now).event = none) :
    (obstacleStep cfg st (some d) now).state.lastAlertTime = st.lastAlertTime
    ∧ (obstacleStep cfg st (some d) now).state.lastDistance = some d
    ∧ (∀ st₂ now₂, (obstacleStep cfg st₂ none now₂).state = st₂) := by
  exact ⟨obstacleStep_suppressed_lastAlertTime cfg st d now hsup,
    obstacleStep_lastDistance cfg st d now,
    fun st₂ now₂ => rfl⟩

theorem suppressed_sample_frame_witness :
    (obstacleStep ⟨50, 100, 300, 1⟩ ⟨some 40, 10, 10⟩ (some 45) 11).event = none
    ∧ (obstacleStep ⟨50, 100, 300, 1⟩ ⟨some 40, 10, 10⟩
        (some 45) 11).state.lastAlertTime = 10 := by
  have hsup : (obstacleStep ⟨50, 100, 300, 1⟩ ⟨some 40, 10, 10⟩
      (some 45) 11).event = none := by
    norm_num [obstacleStep, alertGate]
  exact ⟨hsup,
    (suppressed_sample_frame ⟨50, 100, 300, 1⟩ ⟨some 40, 10, 10⟩ 45 11 hsup).1⟩

theorem distance_classification_witness :
    (50 : ℚ) < 100 ∧ (100 : ℚ) < 300 ∧
      classifyDistance ⟨50, 100, 300, 1⟩ 30 = some .danger ∧
      classifyDistance ⟨50, 100, 300, 1⟩ 70 = some .warning ∧
      classifyDistance ⟨50, 100, 300, 1⟩ 150 = none := by
  have h := distance_classification ⟨50, 100, 300, 1⟩ (by norm_num) (by norm_num)
  exact ⟨by norm_num, by norm_num,
    (h.2.1 30).mpr (by norm_num),
    (h.2.2.1 70).mpr ⟨by norm_num, by norm_num⟩,
    (h.2.2.2 150).mpr (by norm_num)⟩

/-! ### Ultrasonic ranging (`src/src/sensors/ultrasonic.py`) -/

/-- The environment seen by the polling loops of `measure_distance`: the i-th
poll iteration reads the echo line as `echo i` and all `time.time()` calls of
that iteration return `t i` (the clock is modelled at per-iteration
granularity, which the claims proved here never distinguish). -/
structure PollEnv where
  echo : ℕ → Bool
  t : ℕ → ℚ

/-- The first polling loop of `measure_distance` (`ultrasonic.py` lines
59-64): while the echo reads low, record `pulse_start = time.time()` and
return the timeout outcome once `time.time() - timeout_start > 0.1`.  On a
high reading, return the recorded `pulse_start` and the index of the high
poll.  `fuel` bounds the number of iterations modelled; the outer `none`
marks fuel exhaustion (the unbounded `while` not having decided yet) and is
distinct from `some none`, the code's `return None` timeout outcome. -/
def waitEchoRise (env : PollEnv) : ℕ → ℕ → ℚ → ℚ → Option (Option (ℚ × ℕ))
  | 0, _, _, _ => none
  | fuel + 1, n, pulseStart, timeoutStart =>
    if env.echo n then some (some (pulseStart, n))
    else
      let ps := env.t n
      if 1/10 < env.t n - timeoutStart then some none
      else waitEchoRise env fuel (n + 1) ps timeoutStart

/-- The second polling loop of `measure_distance` (`ultrasonic.py` lines
67-74): while the echo reads high, record `pulse_end = time.time()`, with the
same timeout discipline; on a low reading return the recorded `pulse_end`. -/
def waitEchoFall (env : PollEnv) : ℕ → ℕ → ℚ → ℚ → Option (Option ℚ)
  | 0, _, _, _ => none
  | fuel + 1, n, pulseEnd, timeoutStart =>
    if env.echo n then
      let pe := env.t n
      if 1/10 < env.t n - timeoutStart then some none
      else waitEchoFall env fuel (n + 1) pe timeoutStart
    else some (some pulseEnd)

/-- Python's `round(x, 2)` on exact values: round `100 * x` to the nearest
integer, ties to the even integer (banker's rounding), divide by 100. -/
def round2 (x : ℚ) : ℚ :=
  let y := 100 * x
  let f := ⌊y⌋
  if y - f < 1/2 then (f : ℚ) / 100
  else if 1/2 < y - f then (f + 1 : ℚ) / 100
  else if Even f then (f : ℚ) / 100 else (f + 1 : ℚ) / 100

/-- `UltrasonicSensor.measure_distance` (`ultrasonic.py` lines 40-93),
as a function of the polling environment: wait for the echo rise (recording
`pulse_start`), then for the echo fall (recording `pulse_end`), compute
`distance = round((pulse_end - pulse_start) * 17150, 2)` and return
`max_distance` instead whenever `distance > max_distance`.  Result `some none`
is the code's `return None` on a phase timeout; the outer `none` means the
fuel bound was hit before either loop decided. -/
def measureDistance (maxDistance : ℚ) (env : PollEnv) (fuel : ℕ) :
    Option (Option ℚ) :=
  match waitEchoRise env fuel 0 (env.t 0) (env.t 0) with
  | none => none
  | some none => some none
  | some (some (pulseStart, n)) =>
    match waitEchoFall env fuel (n + 1) (env.t n) (env.t n) with
    | none => none
    | some none => some none
    | some (some pulseEnd) =>
      let distance := round2 ((pulseEnd - pulseStart) * 17150)
      if maxDistance < distance then some (some maxDistance)
      else some (some distance)

/-- A clean simulated echo pulse whose computed duration is exactly `d`:
low at poll 0 (time 0), high at polls 1 and 2 (the last high poll at time
`d`), low from poll 3 on.  The recorded `pulse_start` is the time of the
last low poll (0) and the recorded `pulse_end` the time of the last high
poll (`d`). -/
def pulseEnv (d : ℚ) : PollEnv where
  echo := fun n => decide (n = 1) || decide (n = 2)
  t := fun n => if n ≤ 1 then 0 else d

theorem measureDistance_le_max (maxDistance : ℚ) (env : PollEnv) (fuel : ℕ)
    (x : ℚ) (h : measureDistance maxDistance env fuel = some (some x)) :
    x ≤ maxDistance := by
  unfold measureDistance at h
  split at h
  · simp at h
  · simp at h
  · split at h
    · simp at h
    · simp at h
    · dsimp only at h
      split_ifs at h with hlt
      · simp only [Option.some.injEq] at h
        subst h
        exact le_rfl
      · simp only [Option.some.injEq] at h
        subst h
        exact le_of_not_lt hlt

theorem waitEchoRise_succ (env : PollEnv) (fuel n : ℕ) (ps ts : ℚ) :
    waitEchoRise env (fuel + 1) n ps ts
      = if env.echo n then some (some (ps, n))
        else if 1/10 < env.t n - ts then some none
        else waitEchoRise env fuel (n + 1) (env.t n) ts := rfl

theorem waitEchoFall_succ (env : PollEnv) (fuel n : ℕ) (pe ts : ℚ) :
    waitEchoFall env (fuel + 1) n pe ts
      = if env.echo n then
          (if 1/10 < env.t n - ts then some none
           else waitEchoFall env fuel (n + 1) (env.t n) ts)
        else some (some pe) := rfl

theorem measureDistance_pulse (maxd d : ℚ) (h₀ : 0 ≤ d) (h₁ : d ≤ 1/10) :
    measureDistance maxd (pulseEnv d) 5
      = some (some (if maxd < round2 (d * 17150) then maxd
          else round2 (d * 17150))) := by
  have he0 : (pulseEnv d).echo 0 = false := rfl
  have he1 : (pulseEnv d).echo 1 = true := rfl
  have he2 : (pulseEnv d).echo 2 = true := rfl
  have he3 : (pulseEnv d).echo 3 = false := rfl
  have ht0 : (pulseEnv d).t 0 = 0 := rfl
  have ht1 : (pulseEnv d).t 1 = 0 := rfl
  have ht2 : (pulseEnv d).t 2 = d := rfl
  have hq : ¬ (1/10 : ℚ) < 0 := by norm_num
  have hd : ¬ (1/10 : ℚ) < d := not_lt.mpr h₁
  unfold measureDistance
  simp only [waitEchoRise_succ, waitEchoFall_succ, Nat.reduceAdd,
    he0, he1, he2, he3, ht0, ht1, ht2, Bool.false_eq_true, if_false, if_true,
    sub_zero, hq, hd]
  split_ifs <;> rfl

/-- C4: a simulated echo pulse of duration `d` observed within the timeout
budget yields `round(d * 17150, 2)` when that value does not exceed the
configured maximum and exactly `max_distance` when it does; every distance
value ever returned is at most `max_distance`; concretely, an echo high for
0.0292 s with `max_distance = 200` yields exactly 200. -/
theorem measure_distance_rounding_clamp :
    (∀ d maxd : ℚ, 0 ≤ d → d ≤ 1/10 →
      measureDistance maxd (pulseEnv d) 5
        = some (some (if maxd < round2 (d * 17150) then maxd
            else round2 (d * 17150))))
    ∧ (∀ (maxd : ℚ) (env : PollEnv) (fuel : ℕ) (x : ℚ),
        measureDistance maxd env fuel = some (some x) → x ≤ maxd)
    ∧ measureDistance 200 (pulseEnv (292/10000)) 5 = some (some 200) := by
  refine ⟨fun d maxd h₀ h₁ => measureDistance_pulse maxd d h₀ h₁,
    fun maxd env fuel x h => measureDistance_le_max maxd env fuel x h, ?_⟩
  rw [measureDistance_pulse 200 (292/10000) (by norm_num) (by norm_num)]
  norm_num [round2]

theorem measure_distance_rounding_clamp_witness :
    measureDistance 300 (pulseEnv (12/1715)) 5 = some (some 120) := by
  rw [measure_distance_rounding_clamp.1 (12/1715) 300 (by norm_num) (by norm_num)]
  norm_num [round2]

theorem waitEchoRise_allLow (env : PollEnv)
    (hlow : ∀ m, env.echo m = false) :
    ∀ (fuel n : ℕ) (ps ts : ℚ),
      (∃ k, n ≤ k ∧ k < n + fuel ∧ 1/10 < env.t k - ts) →
      waitEchoRise env fuel n ps ts = some none := by
  intro fuel
  induction fuel with
  | zero =>
    intro n ps ts h
    obtain ⟨k, hk₁, hk₂, _⟩ := h
    omega
  | succ fuel ih =>
    intro n ps ts h
    have hstep : waitEchoRise env (fuel + 1) n ps ts
        = if 1/10 < env.t n - ts then some none
          else waitEchoRise env fuel (n + 1) (env.t n) ts := by
      simp only [waitEchoRise, hlow n, Bool.false_eq_true, if_false]
    rw [hstep]
    by_cases hc : 1/10 < env.t n - ts
    · rw [if_pos hc]
    · rw [if_neg hc]
      apply ih
      obtain ⟨k, hk₁, hk₂, hk₃⟩ := h
      have hkn : k ≠ n := fun hkn => hc (hkn ▸ hk₃)
      exact ⟨k, by omega, by omega, hk₃⟩

theorem waitEchoFall_allHigh (env : PollEnv) :
    ∀ (fuel n : ℕ) (pe ts : ℚ),
      (∀ m, n ≤ m → env.echo m = true) →
      (∃ k, n ≤ k ∧ k < n + fuel ∧ 1/10 < env.t k - ts) →
      waitEchoFall env fuel n pe ts = some none := by
  intro fuel
  induction fuel with
  | zero =>
    intro n pe ts _ h
    obtain ⟨k, hk₁, hk₂, _⟩ := h
    omega
  | succ fuel ih =>
    intro n pe ts hhigh h
    have hstep : waitEchoFall env (fuel + 1) n pe ts
        = if 1/10 < env.t n - ts then some none
          else waitEchoFall env fuel (n + 1) (env.t n) ts := by
      simp only [waitEchoFall, hhigh n le_rfl, if_true]
    rw [hstep]
    by_cases hc : 1/10 < env.t n - ts
    · rw [if_pos hc]
    · rw [if_neg hc]
      apply ih _ _ _ (fun m hm => hhigh m (by omega))
      obtain ⟨k, hk₁, hk₂, hk₃⟩ := h
      have hkn : k ≠ n := fun hkn => hc (hkn ▸ hk₃)
      exact ⟨k, by omega, by omega, hk₃⟩

/-- C5: a timeout at either polling phase yields the timeout outcome
(`None`), never an exception: if the echo line never reaches the active
level, the first polling loop returns `None` once some poll exceeds the
100 ms budget; if the echo rises (first phase observed at poll `n`) but
never returns to the inactive level, the second polling loop likewise
returns `None`; and the obstacle loop treats a `None` measurement as
"no sample this cycle": it emits nothing, leaves its state untouched, and
retries after a 0.1 s backoff. -/
theorem timeout_on_dead_echo (env : PollEnv) (maxd : ℚ) (fuel : ℕ) :
    ((∀ m, env.echo m = false) →
      (∃ k, k < fuel ∧ 1/10 < env.t k - env.t 0) →
      measureDistance maxd env fuel = some none)
    ∧ (∀ (ps : ℚ) (n : ℕ),
        waitEchoRise env fuel 0 (env.t 0) (env.t 0) = some (some (ps, n)) →
        (∀ m, n < m → env.echo m = true) →
        (∃ k, n < k ∧ k < n + 1 + fuel ∧ 1/10 < env.t k - env.t n) →
        measureDistance maxd env fuel = some none)
    ∧ (∀ (cfg : ObstacleCfg) (st : LoopState) (now : ℚ),
        obstacleStep cfg st none now
          = ⟨st, none, none, 1/10⟩) := by
  refine ⟨fun hlow htrip => ?_, fun ps n hrise hhigh htrip => ?_, fun cfg st now => rfl⟩
  · have h : waitEchoRise env fuel 0 (env.t 0) (env.t 0) = some none := by
      apply waitEchoRise_allLow env hlow
      obtain ⟨k, hk₁, hk₂⟩ := htrip
      exact ⟨k, Nat.zero_le k, by omega, hk₂⟩
    unfold measureDistance
    rw [h]
  · have hfall : waitEchoFall env fuel (n + 1) (env.t n) (env.t n) = some none := by
      apply waitEchoFall_allHigh env fuel (n + 1) (env.t n) (env.t n)
        (fun m hm => hhigh m (by omega))
      obtain ⟨k, hk₁, hk₂, hk₃⟩ := htrip
      exact ⟨k, by omega, by omega, hk₃⟩
    unfold measureDistance
    simp only [hrise]
    simp only [hfall]

theorem timeout_on_dead_echo_witness :
    measureDistance 300 ⟨fun _ => false, fun n => (n : ℚ)⟩ 2 = some none
    ∧ measureDistance 300 ⟨fun m => decide (1 ≤ m), fun n => (n : ℚ)⟩ 3
        = some none := by
  constructor
  · exact (timeout_on_dead_echo ⟨fun _ => false, fun n => (n : ℚ)⟩ 300 2).1
      (fun _ => rfl) ⟨1, by norm_num⟩
  · apply (timeout_on_dead_echo
      ⟨fun m => decide (1 ≤ m), fun n => (n : ℚ)⟩ 300 3).2.1 ((0 : ℕ) : ℚ) 1
    · norm_num [waitEchoRise_succ]
    · intro m hm
      simpa using Nat.one_le_iff_ne_zero.mpr (by omega)
    · exact ⟨2, by norm_num, by norm_num, by norm_num⟩

/-! ### Connection-oriented transports
(`src/src/connectivity/bluetooth.py`, `src/src/connectivity/usb.py`) -/

/-- A response envelope `{status, message}` as built by the transport
dispatchers (the success payloads of individual handlers are abstracted into
the handler's return value). -/
structure Response where
  status : String
  message : Option String
deriving DecidableEq, Repr

/-- The error response for a frame that fails JSON decoding
(`bluetooth.py` line 230). -/
def invalidFormatResponse : Response :=
  ⟨"error", some "Format de données invalide"⟩

/-- The error response for an unregistered command
(`bluetooth.py` line 219, `usb.py` line 217). -/
def unknownCommandResponse (command : String) : Response :=
  ⟨"error", some ("Commande \x27" ++ command ++ "\x27 non reconnue")⟩

/-- An inbound frame after the JSON-decode attempt: either it failed to
decode (`json.JSONDecodeError`) or it decoded to a message whose `command`
field is the given string (`message.get("command", "")`). -/
inductive RxFrame where
  | malformed
  | valid (command : String)

/-- A command table entry: a handler reads and possibly updates the
orchestrator state `σ` and produces a response
(`self.command_handlers[command](params)`). -/
def Handlers (σ : Type) : Type :=
  String → Option (σ → Response × σ)

/-- `BluetoothManager._process_received_data` (`bluetooth.py` lines
197-233): on a decoded message, dispatch on the command table, answering
unknown commands with the naming error response; on a JSON decode failure,
send the invalid-format error response.  The first output component is the
response written back to the peer (`none` = nothing written), the second the
orchestrator state afterwards. -/
def btProcessReceivedData {σ : Type} (handlers : Handlers σ) (st : σ)
    (rx : RxFrame) : Option Response × σ :=
  match rx with
  | .valid command =>
    match handlers command with
    | some handler => let r := handler st; (some r.1, r.2)
    | none => (some (unknownCommandResponse command), st)
  | .malformed => (some invalidFormatResponse, st)

/-- `USBManager._process_received_data` (`usb.py` lines 196-229): same
dispatch as Bluetooth for decoded messages, but the `json.JSONDecodeError`
branch (lines 226-227) only logs — no response is written back. -/
def usbProcessReceivedData {σ : Type} (handlers : Handlers σ) (st : σ)
    (rx : RxFrame) : Option Response × σ :=
  match rx with
  | .valid command =>
    match handlers command with
    | some handler => let r := handler st; (some r.1, r.2)
    | none => (some (unknownCommandResponse command), st)
  | .malformed => (none, st)

/-- C6 counterexample: on the USB-serial transport a malformed frame
produces no response at all — `usb.py` only logs the decode failure — so
the claim that *both* connection-oriented transports send back the
invalid-format error response is false. -/
theorem usb_malformed_sends_no_response :
    (usbProcessReceivedData (σ := Unit) (fun _ => none) () .malformed).1 = none
    ∧ (none : Option Response) ≠ some invalidFormatResponse := by
  exact ⟨rfl, by simp⟩

/-- C6 amended: a malformed frame is consumed without mutating orchestrator
state on either transport; Bluetooth replies with
`{status:"error", message:"Format de données invalide"}`, while USB-serial
logs the failure and sends nothing back. -/
theorem malformed_frame_handling {σ : Type} (handlers : Handlers σ) (st : σ) :
    btProcessReceivedData handlers st .malformed = (some invalidFormatResponse, st)
    ∧ usbProcessReceivedData handlers st .malformed = (none, st) :=
  ⟨rfl, rfl⟩

/-- C8: a decoded envelope whose command is not in the command table is
answered, on both transports, with the error response naming the command,
and the orchestrator state is left untouched (no handler runs). -/
theorem unknown_command_no_mutation {σ : Type} (handlers : Handlers σ)
    (st : σ) (command : String) (h : handlers command = none) :
    btProcessReceivedData handlers st (.valid command)
      = (some (unknownCommandResponse command), st)
    ∧ usbProcessReceivedData handlers st (.valid command)
      = (some (unknownCommandResponse command), st) := by
  constructor <;> simp [btProcessReceivedData, usbProcessReceivedData, h]

theorem unknown_command_no_mutation_witness :
    btProcessReceivedData (σ := ℕ) (fun _ => none) 7 (.valid "foo")
      = (some (unknownCommandResponse "foo"), 7) :=
  (unknown_command_no_mutation (σ := ℕ) (fun _ => none) 7 "foo" rfl).1

/-- One pass of the broadcast loop of `BluetoothManager.broadcast`
(`bluetooth.py` lines 271-276): try the write for each client in table
order; collect the successfully written clients and, separately, the clients
whose write raised (appended to `disconnected_clients`). -/
def broadcastIter (sendOk : String → Bool) : List String → List String × List String
  | [] => ([], [])
  | c :: rest =>
    let p := broadcastIter sendOk rest
    if sendOk c then (c :: p.1, p.2) else (p.1, c :: p.2)

/-- `BluetoothManager.broadcast` (`bluetooth.py` lines 256-285): iterate all
clients, then — only after the full iteration — close and delete every
client whose write failed.  Returns (clients the payload was delivered to,
client table after the cleanup). -/
def broadcast (sendOk : String → Bool) (clients : List String) :
    List String × List String :=
  let p := broadcastIter sendOk clients
  (p.1, clients.filter (fun c => decide (c ∉ p.2)))

theorem broadcastIter_fst (sendOk : String → Bool) (clients : List String) :
    (broadcastIter sendOk clients).1 = clients.filter sendOk := by
  induction clients with
  | nil => rfl
  | cons c rest ih =>
    simp only [broadcastIter, List.filter_cons]
    by_cases h : sendOk c <;> simp [h, ih]

theorem broadcastIter_snd (sendOk : String → Bool) (clients : List String) :
    (broadcastIter sendOk clients).2 = clients.filter (fun c => !sendOk c) := by
  induction clients with
  | nil => rfl
  | cons c rest ih =>
    simp only [broadcastIter, List.filter_cons]
    by_cases h : sendOk c <;> simp [h, ih]

/-- C7: during a broadcast, a failed write to one client does not stop
delivery — the payload reaches exactly the clients whose writes succeed,
in table order — and each failed client is purged from the client table
after the iteration, while each successful client stays. -/
theorem broadcast_partial_failure (sendOk : String → Bool)
    (clients : List String) (c : String) (hc : c ∈ clients) :
    (broadcast sendOk clients).1 = clients.filter sendOk
    ∧ (sendOk c = true →
        c ∈ (broadcast sendOk clients).1 ∧ c ∈ (broadcast sendOk clients).2)
    ∧ (sendOk c = false → c ∉ (broadcast sendOk clients).2) := by
  have hfst : (broadcast sendOk clients).1 = clients.filter sendOk :=
    broadcastIter_fst sendOk clients
  have hsnd : (broadcast sendOk clients).2
      = clients.filter
          (fun x => decide (x ∉ clients.filter (fun y => !sendOk y))) := by
    simp only [broadcast, broadcastIter_snd]
  refine ⟨hfst, fun hok => ⟨?_, ?_⟩, fun hfail => ?_⟩
  · rw [hfst]
    exact List.mem_filter.mpr ⟨hc, hok⟩
  · rw [hsnd]
    refine List.mem_filter.mpr ⟨hc, ?_⟩
    rw [decide_eq_true_eq]
    intro hmem
    rcases List.mem_filter.mp hmem with ⟨_, hxf⟩
    rw [hok] at hxf
    exact absurd hxf (by simp)
  · rw [hsnd]
    intro hmem
    rcases List.mem_filter.mp hmem with ⟨_, hkeep⟩
    rw [decide_eq_true_eq] at hkeep
    exact hkeep (List.mem_filter.mpr ⟨hc, by rw [hfail]; rfl⟩)

theorem broadcast_partial_failure_witness :
    "a" ∈ ["a", "b", "c"]
    ∧ (broadcast (fun s => !(decide (s = "b"))) ["a", "b", "c"]).1 = ["a", "c"]
    ∧ "a" ∈ (broadcast (fun s => !(decide (s = "b"))) ["a", "b", "c"]).2 := by
  have h := broadcast_partial_failure (fun s => !(decide (s = "b")))
    ["a", "b", "c"] "a" (by simp)
  refine ⟨by simp, ?_, (h.2.1 (by simp)).2⟩
  rw [h.1]
  rfl

/-! ### System status over the transports (`main.py`, `_handle_bt_get_status`) -/

/-- The attribute state of an `UltrasonicSensor` object: the configured
maximum range and the optional `last_distance` attribute as read by
`getattr(self.ultrasonic, 'last_distance', None)` — `none` models the
attribute being absent, in which case `getattr` yields Python `None`. -/
structure UltrasonicState where
  maxDistance : ℚ
  lastDistanceAttr : Option ℚ
deriving DecidableEq, Repr

/-- `UltrasonicSensor.__init__` (`ultrasonic.py` lines 16-38): stores the
pins and `max_distance`; no `last_distance` attribute is ever assigned in
the class, so the modelled attribute starts (and stays) absent. -/
def initUltrasonic (maxDistance : ℚ) : UltrasonicState :=
  ⟨maxDistance, none⟩

/-- `measure_distance` with the sensor object threaded through: the method
computes and returns the distance but assigns no attribute on `self`
(`ultrasonic.py` lines 40-93), so the sensor state comes back unchanged. -/
def measureDistanceS (u : UltrasonicState) (env : PollEnv) (fuel : ℕ) :
    Option (Option ℚ) × UltrasonicState :=
  (measureDistance u.maxDistance env fuel, u)

/-- The `data` dictionary of the `get_status` response
(`main.py` lines 520-530). -/
structure StatusData where
  systemRunning : Bool
  cameraEnabled : Bool
  detectionEnabled : Bool
  lastDistance : Option ℚ
  batteryLevel : ℕ
deriving DecidableEq, Repr

/-- `CanneApp._handle_bt_get_status` (`main.py` lines 518-530), also reused
verbatim by `_handle_usb_get_status`: builds a success response whose
`last_distance` field is `getattr(self.ultrasonic, 'last_distance', None)`;
no measurement is triggered. -/
def handleBtGetStatus (running cameraEnabled detectionEnabled : Bool)
    (u : UltrasonicState) : String × StatusData :=
  ("success", ⟨running, cameraEnabled, detectionEnabled, u.lastDistanceAttr, 85⟩)

/-- C9 evaluation: `measure_distance` never touches the sensor object's
attributes and `__init__` never creates `last_distance`, so after a
successful 120 cm measurement `get_status` still reports
`last_distance = None`, not the last measured distance. -/
theorem get_status_lastDistance_never_recorded :
    (∀ (u : UltrasonicState) (env : PollEnv) (fuel : ℕ),
      (measureDistanceS u env fuel).2 = u)
    ∧ (∀ m : ℚ, (initUltrasonic m).lastDistanceAttr = none)
    ∧ (measureDistanceS (initUltrasonic 300) (pulseEnv (12/1715)) 5).1
        = some (some 120)
    ∧ (handleBtGetStatus true true true
        (measureDistanceS (initUltrasonic 300) (pulseEnv (12/1715)) 5).2).2.lastDistance
        = none
    ∧ (none : Option ℚ) ≠ some 120 := by
  refine ⟨fun u env fuel => rfl, fun m => rfl, ?_, rfl, by simp⟩
  show measureDistance 300 (pulseEnv (12/1715)) 5 = some (some 120)
  rw [measureDistance_pulse 300 (12/1715) (by norm_num) (by norm_num)]
  norm_num [round2]

/-! ### Object detection (`src/src/detection/object_detector.py`) -/

/-- An OpenCV frame as far as `detect_objects` inspects it: the shape of the
`numpy` array. -/
structure Frame where
  height : ℕ
  width : ℕ
  channels : ℕ
deriving DecidableEq, Repr

/-- `numpy.ndarray.size` — the total number of array elements. -/
def Frame.size (f : Frame) : ℕ :=
  f.height * f.width * f.channels

/-- One row of the raw network output `detections[0, 0, i]`: class index,
confidence, and the normalised box corners `detections[0, 0, i, 3:7]`. -/
structure RawDet where
  classId : ℤ
  confidence : ℚ
  x1 : ℚ
  y1 : ℚ
  x2 : ℚ
  y2 : ℚ

/-- `numpy` `astype("int")`: truncation toward zero. -/
def truncToInt (q : ℚ) : ℤ :=
  if q < 0 then -⌊-q⌋ else ⌊q⌋

/-- Class-name lookup (`object_detector.py` lines 101-104): the label at
`class_id` when in range, else the fallback `"Classe-<id>"`. -/
def className (labels : List String) (classId : ℤ) : String :=
  if 0 ≤ classId ∧ classId < labels.length then labels.getD classId.toNat ""
  else "Classe-" ++ toString classId

/-- One detection result `(class_name, confidence, (startX, startY, endX, endY))`. -/
abbrev Detection : Type := String × ℚ × (ℤ × ℤ × ℤ × ℤ)

/-- `ObjectDetector.detect_objects` (`object_detector.py` lines 57-120).
A `None` or zero-size frame returns `[]` at once; the fallible OpenCV
inference (blob preparation and `net.forward`) is abstracted as `infer`,
whose failure is the `except` branch returning `[]`.  Rows above the
confidence threshold are labelled and their boxes scaled to pixels, the
results are sorted by descending confidence (Python's stable `sort` with
`reverse=True`), and the list is truncated to `max_detections`. -/
def detectObjects (confidenceThreshold : ℚ) (maxDetections : ℕ)
    (labels : List String) (frame : Option Frame)
    (infer : Frame → Except Unit (List RawDet)) : List Detection :=
  match frame with
  | none => []
  | some f =>
    if f.size = 0 then []
    else
      match infer f with
      | .error _ => []
      | .ok dets =>
        let results := dets.filterMap (fun d =>
          if confidenceThreshold < d.confidence then
            some (className labels d.classId, d.confidence,
              (truncToInt (d.x1 * f.width), truncToInt (d.y1 * f.height),
               truncToInt (d.x2 * f.width), truncToInt (d.y2 * f.height)))
          else none)
        let sorted := results.mergeSort (fun a b => decide (b.2.1 ≤ a.2.1))
        sorted.take maxDetections

/-- C10: `detect_objects` is total — a `None` frame, a zero-size frame and
an inference failure all yield `[]` rather than an exception — and every
result is sorted descending by confidence with length at most
`max_detections`. -/
theorem detect_objects_total_sorted (confidenceThreshold : ℚ)
    (maxDetections : ℕ) (labels : List String)
    (infer : Frame → Except Unit (List RawDet)) :
    detectObjects confidenceThreshold maxDetections labels none infer = []
    ∧ (∀ f : Frame, f.size = 0 →
        detectObjects confidenceThreshold maxDetections labels (some f) infer = [])
    ∧ (∀ (f : Frame) (e : Unit), infer f = .error e →
        detectObjects confidenceThreshold maxDetections labels (some f) infer = [])
    ∧ (∀ frame : Option Frame,
        (detectObjects confidenceThreshold maxDetections labels frame infer).length
          ≤ maxDetections
        ∧ (detectObjects confidenceThreshold maxDetections labels frame infer).Pairwise
            (fun a b => b.2.1 ≤ a.2.1)) := by
  refine ⟨rfl, fun f hf => by simp [detectObjects, hf], fun f e he => ?_, fun frame => ?_⟩
  · by_cases hf : f.size = 0
    · simp [detectObjects, hf]
    · simp [detectObjects, hf, he]
  · rcases frame with _ | f
    · exact ⟨by simp [detectObjects], by simp [detectObjects]⟩
    · by_cases hf : f.size = 0
      · constructor <;> simp [detectObjects, hf]
      · rcases hinf : infer f with e | dets
        · constructor <;> simp [detectObjects, hf, hinf]
        · have hred : detectObjects confidenceThreshold maxDetections labels
              (some f) infer
              = ((dets.filterMap (fun d =>
                  if confidenceThreshold < d.confidence then
                    some (className labels d.classId, d.confidence,
                      (truncToInt (d.x1 * f.width), truncToInt (d.y1 * f.height),
                       truncToInt (d.x2 * f.width), truncToInt (d.y2 * f.height)))
                  else none)).mergeSort
                    (fun a b => decide (b.2.1 ≤ a.2.1))).take maxDetections := by
            simp [detectObjects, hf, hinf]
          rw [hred]
          constructor
          · exact List.length_take_le maxDetections _
          · have hsorted := @List.sorted_mergeSort Detection
              (fun a b : Detection => decide (b.2.1 ≤ a.2.1))
              (fun a b c h₁ h₂ => by
                simp only [decide_eq_true_eq] at h₁ h₂ ⊢
                exact le_trans h₂ h₁)
              (fun a b => by
                simp only [Bool.or_eq_true, decide_eq_true_eq]
                exact le_total b.2.1 a.2.1)
              (dets.filterMap (fun d =>
                if confidenceThreshold < d.confidence then
                  some (className labels d.classId, d.confidence,
                    (truncToInt (d.x1 * f.width), truncToInt (d.y1 * f.height),
                     truncToInt (d.x2 * f.width), truncToInt (d.y2 * f.height)))
                else none))
            have htake := List.Pairwise.sublist
              (List.take_sublist maxDetections _) hsorted
            exact htake.imp (fun h => by simpa using h)

theorem detect_objects_total_sorted_witness :
    Frame.size ⟨0, 640, 3⟩ = 0
    ∧ detectObjects (1/2) 5 ["personne"] (some ⟨0, 640, 3⟩)
        (fun _ => .ok []) = [] :=
  ⟨rfl, (detect_objects_total_sorted (1/2) 5 ["personne"]
    (fun _ => .ok [])).2.1 ⟨0, 640, 3⟩ rfl⟩

end CanneX
